import Mathlib

/-!
Verification of the `rotatelog` relay: a shallow embedding of `src/main.rs`.

The embedding covers the four components the claims are about:
* the relay loop in `main` (stdin reads, the buffer handling, EOF, rotation
  bookkeeping, the short-read sleep);
* the clock-watcher loop that maintains the `near_end_of_day` flag;
* `reopen_log_file` (the rotation engine: symlink inspection, canonicalize,
  compression handoff, unlink/open/symlink);
* `gzip_file_and_delete_original` / `is_file_empty` / `try_gzip_file`
  (the compressor).

Bytes are modelled as `Nat`, file contents by their byte length where only
the length matters, the filesystem as a map from canonical absolute path
strings to file sizes, and the single symlink entry at
`folder/base_filename` as an explicit `Option LinkEntry` field.
-/

namespace Rotatelog

/-! ## Relay loop (`main`, src/main.rs lines 107-146)

The loop state carries the remaining stdin bytes, the `Vec<u8>` buffer
(initially `8192` zero bytes, from `buffer.resize(8192, 0)`), the chunks
passed to `file.write_all`, the `date_changed` flag (initially `true`), the
number of `reopen_log_file` calls made inside the loop, the number of
250 ms sleeps taken, and whether the loop has broken out at EOF.

Each iteration is driven by an oracle entry `(neod, bulkN)`:
`neod` is the value `near_end_of_day.load()` returns and `bulkN` is the
number of bytes the OS chooses to hand to a bulk `read` call (capped, as
the real `read` is, by the buffer length and the available input). -/

/-- Bytes consumed by `BufRead::read_until(b'\n', ..)`: everything up to and
including the first newline (byte 10), or all remaining input at EOF. -/
def takeThroughNl : List Nat → List Nat
  | [] => []
  | b :: bs => if b = 10 then [b] else b :: takeThroughNl bs

structure RelayState where
  input : List Nat
  buffer : List Nat
  writes : List (List Nat)
  dateChanged : Bool
  rotations : Nat
  sleeps : Nat
  exited : Bool
deriving Repr, DecidableEq

/-- The bytes returned by one read call.  In near-end-of-day mode this is
`read_until`'s deterministic newline-delimited chunk; in bulk mode it is
`read(&mut buffer)`, which returns at most `buffer.len()` bytes. -/
def readChunk (neod : Bool) (bulkN : Nat) (s : RelayState) : List Nat :=
  if neod then takeThroughNl s.input
  else s.input.take (min bulkN s.buffer.length)

/-- One iteration of the relay loop.  Mirrors src/main.rs lines 113-144:
`read_until` APPENDS the chunk to the buffer and `buffer.truncate(bytes_read)`
then keeps the first `bytes_read` bytes of the appended vector, while a bulk
`read` overwrites the buffer prefix so truncation keeps exactly the chunk.
An empty buffer breaks the loop; otherwise the rotation flag is checked and
cleared, the buffer is written, and a 1-byte buffer triggers a sleep. -/
def relayStep (e : Bool × Nat) (s : RelayState) : RelayState :=
  if s.exited then s
  else
    let chunk := readChunk e.1 e.2 s
    let buf := if e.1 then (s.buffer ++ chunk).take chunk.length else chunk
    if buf.isEmpty then
      { s with buffer := buf, exited := true }
    else
      { input := s.input.drop chunk.length
        buffer := buf
        writes := s.writes ++ [buf]
        dateChanged := false
        rotations := s.rotations + (if s.dateChanged then 1 else 0)
        sleeps := s.sleeps + (if buf.length = 1 then 1 else 0)
        exited := false }

def relayRun (sched : List (Bool × Nat)) (s : RelayState) : RelayState :=
  sched.foldl (fun t e => relayStep e t) s

/-- State at loop entry: `buffer` holds 8192 zero bytes (`Vec::with_capacity`
plus `resize(8192, 0)`), `date_changed` starts `true` (line 55), and one
dated file has already been opened by the startup `reopen_log_file`. -/
def initRelay (input : List Nat) : RelayState :=
  { input := input
    buffer := List.replicate 8192 0
    writes := []
    dateChanged := true
    rotations := 0
    sleeps := 0
    exited := false }

/-- Dated files created over a whole run of `main`: the startup
`reopen_log_file` call plus one call per in-loop rotation. -/
def filesOpened (s : RelayState) : Nat := s.rotations + 1

/-- Exit code of `main`: the loop breaking at EOF returns `Ok(())`. -/
def relayExitCode (s : RelayState) : Option Nat :=
  if s.exited then some 0 else none

/-! ## Clock watcher (`main`, src/main.rs lines 64-84)

Per iteration the watcher observes `Local::now().minute()`; when it is at
least 59 it merely sleeps one second, otherwise it stores `false` into
`near_end_of_day` and sleeps 59 seconds.  The flag starts `true`
(line 67); no statement in the loop ever stores `true`. -/

def watcherStep (flag : Bool) (minute : Nat) : Bool :=
  if 59 ≤ minute then flag else false

/-- The near-end-of-day flag after the watcher has observed the given
minute-of-hour values in order, starting from `flag`. -/
def watcherRun (minutes : List Nat) (flag : Bool) : Bool :=
  minutes.foldl watcherStep flag

/-- The condition the spec says the flag mirrors: minute-of-hour at least 59.
Modelled from the spec sentence "Also maintains the Near-End-Of-Day flag
mirroring the same condition"; kept separate so the watcher's actual flag
can be compared against it. -/
def specNearEndOfDay (minute : Nat) : Bool := 59 ≤ minute

/-! ## Path strings

`reopen_log_file` manipulates paths as strings: `folder.join(name)` appends
with a `/` separator, `read_link(..).canonicalize()` resolves a path
relative to the process working directory into an absolute normalized form,
and symlink targets resolve relative to the directory containing the link.
Paths are modelled as strings over their character lists ("." segments and
empty segments normalize away; ".." and directory symlinks are not used by
the program and are not modelled). -/

def isAbsChars : List Char → Bool
  | '/' :: _ => true
  | _ => false

/-- `true` for paths beginning with `/`. -/
def isAbs (p : String) : Bool := isAbsChars p.toList

/-- Split a character list at `/` separators. -/
def splitSlashAux : List Char → List Char → List (List Char)
  | [], acc => [acc.reverse]
  | c :: cs, acc =>
      if c = '/' then acc.reverse :: splitSlashAux cs []
      else splitSlashAux cs (c :: acc)

/-- The meaningful path segments: empty and `.` segments are dropped. -/
def pathSegsChars (cs : List Char) : List (List Char) :=
  (splitSlashAux cs []).filter (fun seg => seg ≠ [] && seg ≠ ['.'])

def joinSegsChars : List (List Char) → List Char
  | [] => []
  | seg :: rest => '/' :: (seg ++ joinSegsChars rest)

/-- Canonical absolute form of path `p` resolved against working directory
`cwd` (which is itself absolute), as `Path::canonicalize` produces. -/
def canonKey (cwd p : String) : String :=
  String.mk
    (if isAbsChars p.toList then joinSegsChars (pathSegsChars p.toList)
     else joinSegsChars (pathSegsChars cwd.toList ++ pathSegsChars p.toList))

/-- `str::ends_with(".gz")`. -/
def endsWithGz (p : String) : Bool :=
  ['.', 'g', 'z'].isSuffixOf p.toList

/-! ## Rotation engine (`reopen_log_file`, src/main.rs lines 151-216)

The filesystem state records the working directory, the regular files
(canonical absolute path to byte length), the directory entry at
`folder/base_filename` (the only link path the program ever touches), and
the most recently opened output file, which the symlink invariant speaks
about. -/

inductive LinkEntry
  | symlink (target : String)
  | regularFile
deriving DecidableEq, Repr

structure Config where
  folder : String
  base_filename : String
  gzip_on_rotate : Bool

structure Fs where
  cwd : String
  files : String → Option Nat
  link : Option LinkEntry
  lastOpened : Option String

/-- A file exists at an (already canonical) key. -/
def fileExistsKey (s : Fs) (k : String) : Bool := (s.files k).isSome

/-- Where the symlink's stored target string leads: relative targets resolve
against the directory containing the link, i.e. `config.folder`. -/
def resolveLinkTarget (cfg : Config) (s : Fs) (t : String) : String :=
  if isAbs t then canonKey s.cwd t
  else canonKey s.cwd (cfg.folder ++ "/" ++ t)

/-- `link.exists()` (src/main.rs line 169): `Path::exists` FOLLOWS symlinks,
so a symlink entry whose target is missing reports `false`. -/
def linkExists (cfg : Config) (s : Fs) : Bool :=
  match s.link with
  | none => false
  | some LinkEntry.regularFile => true
  | some (LinkEntry.symlink t) => fileExistsKey s (resolveLinkTarget cfg s t)

/-- `read_link(&link)?.canonicalize()?` (line 175): the stored target string
is resolved against the process working directory (not the link's folder)
and fails if no file exists there. -/
def canonicalizeOpt (s : Fs) (p : String) : Option String :=
  let k := canonKey s.cwd p
  if fileExistsKey s k then some k else none

/-- `folder.join(format!("{}-{}", base_filename, date))` (lines 163-165). -/
def filepathOf (cfg : Config) (dateStr : String) : String :=
  cfg.folder ++ "/" ++ cfg.base_filename ++ "-" ++ dateStr

/-- `OpenOptions::new().append(true).create(true).open(&filepath)`:
creates an empty file if absent, keeps the contents otherwise, and makes
this the most recently opened output file. -/
def applyOpen (s : Fs) (p : String) : Fs :=
  let k := canonKey s.cwd p
  { s with
    files := fun q => if q = k then some ((s.files k).getD 0) else s.files q
    lastOpened := some k }

/-- `remove_file(&link)` on the link entry. -/
def applyRemoveLink (s : Fs) : Fs := { s with link := none }

inductive RotErr
  | canonicalizeFailed
  | symlinkEntryExists
deriving DecidableEq, Repr

structure RotOut where
  /-- Filesystem state after `reopen_log_file` returns. -/
  final : Fs
  /-- The states between consecutive filesystem operations of this call:
  the entry state followed by the state after each mutation. -/
  trace : List Fs
  /-- Path handed to the background compression thread, if any. -/
  handoff : Option String
  /-- The dated file the returned handle writes to. -/
  openedPath : String
  /-- Whether the symlink entry was removed and recreated. -/
  relinked : Bool

/-- `std::os::unix::fs::symlink(&filepath, &link)` (line 210): fails with
`EEXIST` when any entry is already present at the link path. -/
def makeLinkOrFail (s : Fs) (target : String) : Except RotErr Fs :=
  match s.link with
  | some _ => Except.error RotErr.symlinkEntryExists
  | none => Except.ok { s with link := some (LinkEntry.symlink target) }

/-- The path taken when `link.exists()` is `false` (line 200-202): relink is
considered required but no `remove_file` runs, so the new file is opened and
then `symlink` is attempted directly. -/
def rotateNoEntryBranch (s : Fs) (filepath : String) : Except RotErr RotOut :=
  let s1 := applyOpen s filepath
  (makeLinkOrFail s1 filepath).map (fun s2 =>
    { final := s2, trace := [s, s1, s2], handoff := none
      openedPath := filepath, relinked := true })

/-- `reopen_log_file` (src/main.rs lines 151-216), with the current date
string supplied as a parameter.  Decisions follow the source order: probe
`link.exists()`; for a symlink entry canonicalize its target and compare the
resulting string with the computed (non-canonical) file path; spawn the
compression handoff when relinking with compression enabled and the old
target not ending in `.gz`; remove the link entry; open the dated file in
append/create mode; recreate the symlink when relinking. -/
def reopen_log_file (cfg : Config) (dateStr : String) (s : Fs) :
    Except RotErr RotOut :=
  let filepath := filepathOf cfg dateStr
  if linkExists cfg s then
    match s.link with
    | some (LinkEntry.symlink t) =>
      match canonicalizeOpt s t with
      | none => Except.error RotErr.canonicalizeFailed
      | some targetKey =>
        if targetKey = filepath then
          let s1 := applyOpen s filepath
          Except.ok { final := s1, trace := [s, s1], handoff := none
                      openedPath := filepath, relinked := false }
        else
          let handoff :=
            if cfg.gzip_on_rotate && !(endsWithGz targetKey) then some targetKey
            else none
          let s1 := applyRemoveLink s
          let s2 := applyOpen s1 filepath
          (makeLinkOrFail s2 filepath).map (fun s3 =>
            { final := s3, trace := [s, s1, s2, s3], handoff := handoff
              openedPath := filepath, relinked := true })
    | some LinkEntry.regularFile =>
      let s1 := applyRemoveLink s
      let s2 := applyOpen s1 filepath
      (makeLinkOrFail s2 filepath).map (fun s3 =>
        { final := s3, trace := [s, s1, s2, s3], handoff := none
          openedPath := filepath, relinked := true })
    | none => rotateNoEntryBranch s filepath
  else
    rotateNoEntryBranch s filepath

/-- The weak current-log-symlink property: the entry either does not exist or
is a symlink resolving to an existing file that is the most recently opened
output file.  The conjunct `isAbs t` records that the program only ever
stores the computed file path as the target, assumed here in its absolute
canonical form. -/
def weakLinkInv (_cfg : Config) (s : Fs) : Bool :=
  match s.link with
  | none => true
  | some LinkEntry.regularFile => false
  | some (LinkEntry.symlink t) =>
    isAbs t && fileExistsKey s (canonKey s.cwd t) &&
      (s.lastOpened == some (canonKey s.cwd t))

/-- The strong form from spec section 8: the symlink must EXIST and resolve
to an existing file that is the most recently opened output file. -/
def strongLinkForm (cfg : Config) (s : Fs) : Bool :=
  match s.link with
  | some (LinkEntry.symlink t) =>
    fileExistsKey s (resolveLinkTarget cfg s t) &&
      (s.lastOpened == some (resolveLinkTarget cfg s t))
  | _ => false

/-- Projection dropping the non-decidable `Fs` payload of a rotation result. -/
def rotSummary (r : Except RotErr RotOut) :
    Except RotErr (Bool × Option String × Option LinkEntry × String) :=
  r.map (fun o => (o.relinked, o.handoff, o.final.link, o.openedPath))

/-! ## Compressor (src/main.rs lines 219-274)

The compressor only needs file lengths, keyed by exact path strings (the
rotation engine hands it the canonicalized old target).  The gzip encoder
and the filesystem can fail; `GzOutcome` is the oracle for where the run of
`try_gzip_file` fails, if at all: `File::create` of the `.gz` failing, or
the encode/finish step failing after the `.gz` file exists. -/

inductive GzOutcome
  | ok
  | createFail
  | encodeFail
deriving DecidableEq, Repr

def CompFs := String → Option Nat

def csExists (s : CompFs) (p : String) : Bool := (s p).isSome

def csRemove (s : CompFs) (p : String) : CompFs :=
  fun q => if q = p then none else s q

def csCreate (s : CompFs) (p : String) (n : Nat) : CompFs :=
  fun q => if q = p then some n else s q

/-- `is_file_empty` (lines 248-255): metadata length zero; a failed metadata
call (missing file) yields `false`. -/
def is_file_empty (s : CompFs) (p : String) : Bool :=
  match s p with
  | some n => n == 0
  | none => false

structure GzTryOut where
  fs : CompFs
  /-- whether `File::create` ran and produced the `.gz` entry -/
  created : Bool
  success : Bool

/-- `try_gzip_file` (lines 257-274): open the source (fails when absent),
create the `.gz` output (truncating; `createFail` models an io error here,
in which case no file appears), then encode; `encodeFail` leaves the
created `.gz` as a partial file. -/
def try_gzip_file (s : CompFs) (src gz : String) (oc : GzOutcome) : GzTryOut :=
  match s src with
  | none => { fs := s, created := false, success := false }
  | some n =>
    match oc with
    | GzOutcome.createFail => { fs := s, created := false, success := false }
    | GzOutcome.encodeFail => { fs := csCreate s gz 0, created := true, success := false }
    | GzOutcome.ok => { fs := csCreate s gz n, created := true, success := true }

structure CompOut where
  fs : CompFs
  /-- messages printed to stderr by this run -/
  diagnostics : List String
  createdGz : Bool
  tookGzipPath : Bool

/-- `gzip_file_and_delete_original` (lines 219-246): an empty file is
removed outright (errors ignored); otherwise gzip to `path + ".gz"`, and on
success delete the original, while on failure remove the `.gz` — printing a
diagnostic only when that removal succeeds or the `.gz` still exists. -/
def gzip_file_and_delete_original (s : CompFs) (p : String) (oc : GzOutcome) :
    CompOut :=
  if is_file_empty s p then
    { fs := csRemove s p, diagnostics := [], createdGz := false, tookGzipPath := false }
  else
    let gz := p ++ ".gz"
    let r := try_gzip_file s p gz oc
    if r.success then
      { fs := csRemove r.fs p, diagnostics := [], createdGz := r.created, tookGzipPath := true }
    else
      if csExists r.fs gz then
        { fs := csRemove r.fs gz
          diagnostics := ["Error gzipping old log file after rotate"]
          createdGz := r.created, tookGzipPath := true }
      else
        { fs := r.fs, diagnostics := [], createdGz := r.created, tookGzipPath := true }

/-! ## Concrete states used by witnesses and counterexamples -/

/-- A mid-stream relay state whose last chunk was a single byte. -/
def bulkDemoState : RelayState :=
  { input := [5, 6, 7], buffer := [9], writes := [[9]]
    dateChanged := false, rotations := 1, sleeps := 1, exited := false }

def c2Cfg : Config :=
  { folder := "/logs", base_filename := "app", gzip_on_rotate := false }

/-- Day 1 has ended: the link points at the existing day-1 file. -/
def c2Start : Fs :=
  { cwd := "/w"
    files := fun q => if q = "/logs/app-2024-01-01" then some 3 else none
    link := some (LinkEntry.symlink "/logs/app-2024-01-01")
    lastOpened := some "/logs/app-2024-01-01" }

def c4Cfg : Config :=
  { folder := "/logs", base_filename := "app", gzip_on_rotate := false }

/-- The link entry is a dangling symlink: its target file does not exist. -/
def c4Start : Fs :=
  { cwd := "/w"
    files := fun _ => none
    link := some (LinkEntry.symlink "/logs/app-2024-01-01")
    lastOpened := none }

def c5Cfg : Config :=
  { folder := ".", base_filename := "app", gzip_on_rotate := true }

/-- State after a first rotation with relative folder `.` and working
directory `/w`: the dated file lives at `/w/app-2024-01-02` and the link
stores the literal computed path `./app-2024-01-02`. -/
def c5Start : Fs :=
  { cwd := "/w"
    files := fun q => if q = "/w/app-2024-01-02" then some 3 else none
    link := some (LinkEntry.symlink "./app-2024-01-02")
    lastOpened := some "/w/app-2024-01-02" }

def c5AbsCfg : Config :=
  { folder := "/logs", base_filename := "app", gzip_on_rotate := true }

/-- Same-granularity-window repeat rotation with an absolute folder. -/
def c5AbsStart : Fs :=
  { cwd := "/w"
    files := fun q => if q = "/logs/app-2024-01-02" then some 3 else none
    link := some (LinkEntry.symlink "/logs/app-2024-01-02")
    lastOpened := some "/logs/app-2024-01-02" }

/-- A single empty superseded file. -/
def c6EmptyFs : CompFs := fun q => if q = "/logs/old" then some 0 else none

/-- A single 5-byte superseded file. -/
def c8Fs : CompFs := fun q => if q = "/logs/old" then some 5 else none

deriving instance DecidableEq for Except

/-! ## Helper lemmas -/

theorem relayRun_cons (e : Bool × Nat) (sched : List (Bool × Nat)) (s : RelayState) :
    relayRun (e :: sched) s = relayRun sched (relayStep e s) := rfl

theorem relayStep_exited (e : Bool × Nat) (s : RelayState) (h : s.exited = true) :
    relayStep e s = s := by
  simp [relayStep, h]

theorem relayRun_exited (sched : List (Bool × Nat)) (s : RelayState)
    (h : s.exited = true) : relayRun sched s = s := by
  induction sched with
  | nil => rfl
  | cons e es ih => rw [relayRun_cons, relayStep_exited e s h]; exact ih

/-! ## Claim theorems -/

/-- C1: the claim fails on the code.  In near-end-of-day mode the relay loop
consumes `"a\n"` (bytes 97, 10) from stdin but writes two stale zero bytes
to the log file: `read_until` appends the chunk to the 8192-byte buffer and
`truncate(bytes_read)` then keeps the buffer's first two (stale) bytes, so
the concatenation of the written chunks is not the input stream. -/
theorem relay_neod_writes_stale_bytes :
    (relayRun [(true, 0)] (initRelay [97, 10])).writes = [[0, 0]] ∧
    (relayRun [(true, 0)] (initRelay [97, 10])).input = [] ∧
    (relayRun [(true, 0)] (initRelay [97, 10])).writes ≠ [[97, 10]] := by
  decide

/-- C3: the claim fails on the code.  The watcher loop never stores `true`
into the near-end-of-day flag: after it once observes a minute below 59 the
flag is `false` and stays `false` even when a later iteration observes
minute 59, where the spec condition (`specNearEndOfDay`) says the flag
should mirror `true`. -/
theorem watcher_flag_never_restored :
    watcherRun [59] true = true ∧
    watcherRun [30, 59] true = false ∧
    specNearEndOfDay 59 = true := by
  decide

/-- C9: an input stream that yields EOF on the first read makes the relay
loop exit immediately and normally: the loop breaks before its rotation
check, so no chunk is written, no in-loop rotation happens (only the one
startup `reopen_log_file` file exists), and `main` returns exit code 0. -/
theorem relay_immediate_eof_exits_clean (e : Bool × Nat) (sched : List (Bool × Nat)) :
    (relayRun (e :: sched) (initRelay [])).exited = true ∧
    (relayRun (e :: sched) (initRelay [])).writes = [] ∧
    filesOpened (relayRun (e :: sched) (initRelay [])) = 1 ∧
    relayExitCode (relayRun (e :: sched) (initRelay [])) = some 0 := by
  obtain ⟨ne, n⟩ := e
  have hstep : relayStep (ne, n) (initRelay []) =
      { input := [], buffer := [], writes := [], dateChanged := true,
        rotations := 0, sleeps := 0, exited := true } := by
    cases ne
    · simp only [relayStep, readChunk, initRelay]
      norm_num [List.take_nil]
    · simp only [relayStep, readChunk, initRelay, takeThroughNl]
      norm_num
  rw [relayRun_cons, hstep, relayRun_exited]
  · exact ⟨rfl, rfl, rfl, rfl⟩
  · rfl

/-- C10: in bulk mode the buffer is truncated to each chunk's byte count and
never re-extended, so once the buffer length is at most `B`, an all-bulk
schedule only ever writes chunks of length at most `B` and leaves the
buffer at length at most `B`; in particular after a 1-byte read every
subsequent bulk read yields at most 1 byte until a newline-delimited read
occurs. -/
theorem relay_bulk_reads_never_recover (sched : List (Bool × Nat)) (s : RelayState)
    (B : Nat) (hb : ∀ e ∈ sched, e.1 = false) (h1 : s.buffer.length ≤ B) :
    (∀ w ∈ (relayRun sched s).writes, w ∈ s.writes ∨ w.length ≤ B) ∧
    (relayRun sched s).buffer.length ≤ B := by
  induction sched generalizing s with
  | nil => exact ⟨fun w hw => Or.inl hw, h1⟩
  | cons e es ih =>
    have he : e.1 = false := hb e (List.mem_cons_self _ _)
    have hb' : ∀ x ∈ es, x.1 = false := fun x hx => hb x (List.mem_cons_of_mem _ hx)
    rw [relayRun_cons]
    by_cases hex : s.exited = true
    · rw [relayStep_exited e s hex]
      exact ih s hb' h1
    · have hexf : s.exited = false := by
        cases h : s.exited
        · rfl
        · exact absurd h hex
      have hclen : (readChunk e.1 e.2 s).length ≤ B := by
        rw [readChunk, he]
        simp only [if_false, Bool.false_eq_true]
        calc (s.input.take (min e.2 s.buffer.length)).length
            ≤ min e.2 s.buffer.length := List.length_take_le _ _
          _ ≤ s.buffer.length := Nat.min_le_right _ _
          _ ≤ B := h1
      have hbuf : (if e.1 = true then
          (s.buffer ++ readChunk e.1 e.2 s).take (readChunk e.1 e.2 s).length
          else readChunk e.1 e.2 s) = readChunk e.1 e.2 s := by
        rw [he]; simp
      by_cases hempty : (readChunk e.1 e.2 s).isEmpty = true
      · have : relayStep e s =
            { s with buffer := readChunk e.1 e.2 s, exited := true } := by
          simp only [relayStep, hexf, Bool.false_eq_true, if_false, hbuf, hempty, if_true]
        rw [this, relayRun_exited _ _ rfl]
        exact ⟨fun w hw => Or.inl hw, hclen⟩
      · have hstep : relayStep e s =
            { input := s.input.drop (readChunk e.1 e.2 s).length
              buffer := readChunk e.1 e.2 s
              writes := s.writes ++ [readChunk e.1 e.2 s]
              dateChanged := false
              rotations := s.rotations + (if s.dateChanged then 1 else 0)
              sleeps := s.sleeps + (if (readChunk e.1 e.2 s).length = 1 then 1 else 0)
              exited := false } := by
          simp only [relayStep, hexf, Bool.false_eq_true, if_false, hbuf, hempty]
        rw [hstep]
        obtain ⟨ihw, ihb⟩ := ih
          { input := s.input.drop (readChunk e.1 e.2 s).length
            buffer := readChunk e.1 e.2 s
            writes := s.writes ++ [readChunk e.1 e.2 s]
            dateChanged := false
            rotations := s.rotations + (if s.dateChanged then 1 else 0)
            sleeps := s.sleeps + (if (readChunk e.1 e.2 s).length = 1 then 1 else 0)
            exited := false } hb' hclen
        refine ⟨fun w hw => ?_, ihb⟩
        rcases ihw w hw with hmem | hlen
        · rcases List.mem_append.mp hmem with hold | hnew
          · exact Or.inl hold
          · rcases List.mem_singleton.mp hnew with rfl
            exact Or.inr hclen
        · exact Or.inr hlen

/-- C10 witness: a concrete all-bulk run from a 1-byte buffer. -/
theorem relay_bulk_reads_never_recover_witness :
    (∀ w ∈ (relayRun [(false, 3), (false, 4)] bulkDemoState).writes,
      w ∈ bulkDemoState.writes ∨ w.length ≤ 1) ∧
    (relayRun [(false, 3), (false, 4)] bulkDemoState).buffer.length ≤ 1 :=
  relay_bulk_reads_never_recover [(false, 3), (false, 4)] bulkDemoState 1
    (by decide) (by decide)

/-- C2 counterexample: the strong section-8 form of the symlink property
fails inside `reopen_log_file`.  Starting from a good state (link aimed at
the existing day-1 file), the trace of states between the filesystem
operations of a day-2 rotation evaluates the strong form to
`[true, false, false, true]`: after `remove_file(&link)` and again after
opening the new file, the symlink does not exist, so it does not "always
resolve to an existing file". -/
theorem rotate_unlink_window_breaks_strong_form :
    (reopen_log_file c2Cfg "2024-01-02" c2Start).map
      (fun o => o.trace.all (strongLinkForm c2Cfg)) = Except.ok false ∧
    (reopen_log_file c2Cfg "2024-01-02" c2Start).map
      (fun o => o.trace.map (strongLinkForm c2Cfg)) =
      Except.ok [true, false, false, true] := by
  decide

/-- C2 amended: at every instant between the filesystem operations of
`reopen_log_file`, the symlink entry either does not exist or is a symlink
resolving to an existing file that is the most-recently-opened output file
(so it is never left aimed at a deleted file) — provided the configured
folder yields an absolute, canonical dated-file path and the entry state
satisfies the same invariant. -/
theorem rotate_preserves_weak_link_invariant (cfg : Config) (dateStr : String) (s : Fs)
    (hinv : weakLinkInv cfg s = true)
    (habs : isAbs (filepathOf cfg dateStr) = true)
    (hclean : canonKey s.cwd (filepathOf cfg dateStr) = filepathOf cfg dateStr) :
    (reopen_log_file cfg dateStr s).map (fun o => o.trace.all (weakLinkInv cfg)) =
      Except.ok true := by
  match hl : s.link with
  | none =>
    have hex : linkExists cfg s = false := by simp [linkExists, hl]
    simp only [reopen_log_file, hex, Bool.false_eq_true, if_false, rotateNoEntryBranch,
      makeLinkOrFail, applyOpen, hl, Except.map]
    simp only [List.all_cons, List.all_nil, Bool.and_true, Except.ok.injEq]
    simp [weakLinkInv, hl, fileExistsKey, hclean, habs]
  | some LinkEntry.regularFile =>
    simp [weakLinkInv, hl] at hinv
  | some (LinkEntry.symlink t) =>
    rw [weakLinkInv, hl] at hinv
    have habs_t : isAbs t = true := by
      rcases (Bool.and_eq_true _ _).mp hinv with ⟨h1, _⟩
      exact ((Bool.and_eq_true _ _).mp h1).1
    have hex_t : fileExistsKey s (canonKey s.cwd t) = true := by
      rcases (Bool.and_eq_true _ _).mp hinv with ⟨h1, _⟩
      exact ((Bool.and_eq_true _ _).mp h1).2
    have hlast : s.lastOpened = some (canonKey s.cwd t) := by
      rcases (Bool.and_eq_true _ _).mp hinv with ⟨_, h2⟩
      exact eq_of_beq h2
    have hex : linkExists cfg s = true := by
      simp [linkExists, hl, resolveLinkTarget, habs_t, hex_t]
    have hcanon : canonicalizeOpt s t = some (canonKey s.cwd t) := by
      simp [canonicalizeOpt, hex_t]
    by_cases hteq : canonKey s.cwd t = filepathOf cfg dateStr
    · simp only [reopen_log_file, hex, if_true, hl, hcanon, hteq, if_pos rfl, Except.map,
        applyOpen]
      simp only [List.all_cons, List.all_nil, Bool.and_true, Except.ok.injEq]
      simp [weakLinkInv, hl, fileExistsKey, habs_t, hteq, hclean, hlast]
      rw [← hteq]
      simpa [fileExistsKey] using hex_t
    · simp only [reopen_log_file, hex, if_true, hl, hcanon, if_neg hteq, Except.map,
        applyRemoveLink, applyOpen, makeLinkOrFail]
      simp only [List.all_cons, List.all_nil, Bool.and_true, Except.ok.injEq]
      simp [weakLinkInv, hl, fileExistsKey, habs, hclean, habs_t, hlast]
      simpa [fileExistsKey] using hex_t

/-- C2 witness: the amended invariant holds across a concrete day-2
rotation from a well-formed day-1 state. -/
theorem rotate_preserves_weak_link_invariant_witness :
    weakLinkInv c2Cfg c2Start = true ∧
    isAbs (filepathOf c2Cfg "2024-01-02") = true ∧
    canonKey c2Start.cwd (filepathOf c2Cfg "2024-01-02") = filepathOf c2Cfg "2024-01-02" ∧
    (reopen_log_file c2Cfg "2024-01-02" c2Start).map
      (fun o => o.trace.all (weakLinkInv c2Cfg)) = Except.ok true :=
  ⟨by decide, by decide, by decide,
    rotate_preserves_weak_link_invariant c2Cfg "2024-01-02" c2Start
      (by decide) (by decide) (by decide)⟩

/-- C4: the claim fails on the code.  When the entry at
`folder/base_filename` is a dangling symlink, `link.exists()` follows the
link and reports `false`, so `reopen_log_file` skips the removal, and the
final `symlink(&filepath, &link)` call fails (`EEXIST`): the function
returns an error instead of replacing the entry and returning a handle. -/
theorem rotate_dangling_symlink_fails :
    c4Start.link = some (LinkEntry.symlink "/logs/app-2024-01-01") ∧
    fileExistsKey c4Start (canonKey c4Start.cwd "/logs/app-2024-01-01") = false ∧
    linkExists c4Cfg c4Start = false ∧
    rotSummary (reopen_log_file c4Cfg "2024-01-02" c4Start) =
      Except.error RotErr.symlinkEntryExists := by
  decide

/-- C5 counterexample: with the relative folder `.`, the link stores
exactly the computed file path `./app-2024-01-02` and rotation recomputes
the same path — yet `reopen_log_file` compares the CANONICALIZED target
`/w/app-2024-01-02` with the raw computed string, decides to relink, and
hands the still-active file off to the compressor. -/
theorem rotate_relative_folder_spurious_relink :
    c5Start.link = some (LinkEntry.symlink (filepathOf c5Cfg "2024-01-02")) ∧
    rotSummary (reopen_log_file c5Cfg "2024-01-02" c5Start) =
      Except.ok (true, some "/w/app-2024-01-02",
        some (LinkEntry.symlink "./app-2024-01-02"), "./app-2024-01-02") := by
  decide

/-- C5 amended: when the canonicalized symlink target equals the computed
file path string (as with an absolute, canonical folder), `reopen_log_file`
is idempotent: no symlink removal or creation, no compression handoff, and
the same dated file is simply reopened for append. -/
theorem rotate_idempotent_on_canonical_match (cfg : Config) (dateStr : String)
    (s : Fs) (t : String)
    (hl : s.link = some (LinkEntry.symlink t))
    (hex : linkExists cfg s = true)
    (hcanon : canonicalizeOpt s t = some (filepathOf cfg dateStr)) :
    rotSummary (reopen_log_file cfg dateStr s) =
      Except.ok (false, none, some (LinkEntry.symlink t), filepathOf cfg dateStr) := by
  simp [rotSummary, reopen_log_file, hex, hl, hcanon, applyOpen, Except.map]

/-- C5 witness: a repeat rotation in the same granularity window with the
absolute folder `/logs` performs no relink and no handoff. -/
theorem rotate_idempotent_on_canonical_match_witness :
    linkExists c5AbsCfg c5AbsStart = true ∧
    canonicalizeOpt c5AbsStart "/logs/app-2024-01-02" =
      some (filepathOf c5AbsCfg "2024-01-02") ∧
    rotSummary (reopen_log_file c5AbsCfg "2024-01-02" c5AbsStart) =
      Except.ok (false, none, some (LinkEntry.symlink "/logs/app-2024-01-02"),
        filepathOf c5AbsCfg "2024-01-02") :=
  ⟨by decide, by decide,
    rotate_idempotent_on_canonical_match c5AbsCfg "2024-01-02" c5AbsStart
      "/logs/app-2024-01-02" rfl (by decide) (by decide)⟩

/-- A path never equals itself with `".gz"` appended. -/
theorem append_gz_ne (p : String) : ¬(p ++ ".gz" = p) := by
  intro h
  have hlen := congrArg String.length h
  rw [String.length_append] at hlen
  have h3 : (".gz" : String).length = 3 := by decide
  omega

/-- C6 counterexample: for an EMPTY superseded file the compressor deletes
the original and creates no `.gz`, so afterwards NEITHER of
{original, `.gz`} exists — contradicting "never neither". -/
theorem compress_empty_file_leaves_neither :
    c6EmptyFs "/logs/old" = some 0 ∧
    (gzip_file_and_delete_original c6EmptyFs "/logs/old" GzOutcome.ok).fs "/logs/old" = none ∧
    (gzip_file_and_delete_original c6EmptyFs "/logs/old" GzOutcome.ok).fs "/logs/old.gz" = none := by
  decide

/-- C6 amended: for a NONEMPTY superseded file, a completed run of
`gzip_file_and_delete_original` leaves exactly one of
{original file, `path + ".gz"`} on disk — never both, never neither —
regardless of whether the gzip encode succeeds or fails at either stage. -/
theorem compress_nonempty_exactly_one (s : CompFs) (p : String) (n : Nat)
    (oc : GzOutcome) (hsrc : s p = some n) (hn : n ≠ 0) :
    csExists (gzip_file_and_delete_original s p oc).fs p ≠
      csExists (gzip_file_and_delete_original s p oc).fs (p ++ ".gz") := by
  have hne : ¬(p ++ ".gz" = p) := append_gz_ne p
  have hne' : ¬(p = p ++ ".gz") := fun h => hne h.symm
  have hemp : is_file_empty s p = false := by
    simp [is_file_empty, hsrc, hn]
  cases oc with
  | ok =>
    simp [gzip_file_and_delete_original, hemp, try_gzip_file, hsrc, csExists,
      csRemove, csCreate, hne, hne']
  | createFail =>
    cases hgz : s (p ++ ".gz") with
    | some m =>
      simp [gzip_file_and_delete_original, hemp, try_gzip_file, hsrc, csExists,
        csRemove, hne, hne', hgz]
    | none =>
      simp [gzip_file_and_delete_original, hemp, try_gzip_file, hsrc, csExists,
        csRemove, hne, hne', hgz]
  | encodeFail =>
    simp [gzip_file_and_delete_original, hemp, try_gzip_file, hsrc, csExists,
      csRemove, csCreate, hne, hne']

/-- C6 witness: a successful compression of a 5-byte file leaves exactly
one of the two paths on disk. -/
theorem compress_nonempty_exactly_one_witness :
    c8Fs "/logs/old" = some 5 ∧
    csExists (gzip_file_and_delete_original c8Fs "/logs/old" GzOutcome.ok).fs "/logs/old" ≠
      csExists (gzip_file_and_delete_original c8Fs "/logs/old" GzOutcome.ok).fs
        ("/logs/old" ++ ".gz") :=
  ⟨by decide,
    compress_nonempty_exactly_one c8Fs "/logs/old" 5 GzOutcome.ok (by decide) (by decide)⟩

/-- C7: an empty superseded file is deleted directly — no `.gz` output is
ever created or written for it and a preexisting entry at `path + ".gz"` is
untouched — and the gzip-encode path is taken exactly for files of
non-zero length. -/
theorem compress_empty_deleted_only (s : CompFs) (p : String) (n : Nat)
    (oc : GzOutcome) (hsrc : s p = some n) :
    (n = 0 →
      (gzip_file_and_delete_original s p oc).fs p = none ∧
      (gzip_file_and_delete_original s p oc).fs (p ++ ".gz") = s (p ++ ".gz") ∧
      (gzip_file_and_delete_original s p oc).createdGz = false ∧
      (gzip_file_and_delete_original s p oc).tookGzipPath = false) ∧
    ((gzip_file_and_delete_original s p oc).tookGzipPath = true ↔ n ≠ 0) := by
  have hne' : ¬(p ++ ".gz" = p) := append_gz_ne p
  by_cases hz : n = 0
  · subst hz
    have hemp : is_file_empty s p = true := by simp [is_file_empty, hsrc]
    simp [gzip_file_and_delete_original, hemp, csRemove, hne']
  · have hemp : is_file_empty s p = false := by simp [is_file_empty, hsrc, hz]
    refine ⟨fun h => absurd h hz, ?_⟩
    simp only [gzip_file_and_delete_original, hemp, Bool.false_eq_true, if_false]
    cases oc with
    | ok => simp [try_gzip_file, hsrc, hz]
    | createFail =>
      cases hgz : s (p ++ ".gz") with
      | some m => simp [try_gzip_file, hsrc, csExists, hgz, hz]
      | none => simp [try_gzip_file, hsrc, csExists, hgz, hz]
    | encodeFail => simp [try_gzip_file, hsrc, csExists, csCreate, hz]

/-- C7 witness: the concrete empty file is removed, no `.gz` appears, and
the gzip path is not taken. -/
theorem compress_empty_deleted_only_witness :
    c6EmptyFs "/logs/old" = some 0 ∧
    ((0 = 0 →
      (gzip_file_and_delete_original c6EmptyFs "/logs/old" GzOutcome.ok).fs "/logs/old" = none ∧
      (gzip_file_and_delete_original c6EmptyFs "/logs/old" GzOutcome.ok).fs
        ("/logs/old" ++ ".gz") = c6EmptyFs ("/logs/old" ++ ".gz") ∧
      (gzip_file_and_delete_original c6EmptyFs "/logs/old" GzOutcome.ok).createdGz = false ∧
      (gzip_file_and_delete_original c6EmptyFs "/logs/old" GzOutcome.ok).tookGzipPath = false) ∧
    ((gzip_file_and_delete_original c6EmptyFs "/logs/old" GzOutcome.ok).tookGzipPath = true ↔
      0 ≠ 0)) :=
  ⟨by decide, compress_empty_deleted_only c6EmptyFs "/logs/old" 0 GzOutcome.ok (by decide)⟩

/-- C8 counterexample: when `File::create` of the `.gz` output fails, no
`.gz` entry exists, so `remove_file(&gz_file_path)` fails and the `.gz`
does not exist — and the code then prints NOTHING: the encode failure is
silent, contradicting "a diagnostic is always emitted on encode failure". -/
theorem compress_create_failure_silent :
    (gzip_file_and_delete_original c8Fs "/logs/old" GzOutcome.createFail).tookGzipPath = true ∧
    (gzip_file_and_delete_original c8Fs "/logs/old" GzOutcome.createFail).diagnostics = [] ∧
    (gzip_file_and_delete_original c8Fs "/logs/old" GzOutcome.createFail).fs "/logs/old" = some 5 := by
  decide

/-- C8 amended: on any failing run over a nonempty source, the compressor
leaves the original file untouched and removes any `.gz` entry best-effort;
a diagnostic is emitted if and only if a `.gz` entry existed at failure
time (always when the encode step proper fails after `File::create`
succeeded; never when creation failed with no preexisting `.gz`). -/
theorem compress_failure_keeps_original (s : CompFs) (p : String) (n : Nat)
    (oc : GzOutcome) (hsrc : s p = some n) (hn : n ≠ 0) (hoc : oc ≠ GzOutcome.ok) :
    (gzip_file_and_delete_original s p oc).fs p = some n ∧
    (gzip_file_and_delete_original s p oc).fs (p ++ ".gz") = none ∧
    ((gzip_file_and_delete_original s p oc).diagnostics ≠ [] ↔
      (oc = GzOutcome.encodeFail ∨ csExists s (p ++ ".gz") = true)) := by
  have hne : ¬(p ++ ".gz" = p) := append_gz_ne p
  have hne' : ¬(p = p ++ ".gz") := fun h => hne h.symm
  have hemp : is_file_empty s p = false := by simp [is_file_empty, hsrc, hn]
  cases oc with
  | ok => exact absurd rfl hoc
  | createFail =>
    cases hgz : s (p ++ ".gz") with
    | some m =>
      simp [gzip_file_and_delete_original, hemp, try_gzip_file, hsrc, csExists,
        csRemove, hne, hne', hgz]
    | none =>
      simp [gzip_file_and_delete_original, hemp, try_gzip_file, hsrc, csExists,
        csRemove, hne, hne', hgz]
  | encodeFail =>
    simp [gzip_file_and_delete_original, hemp, try_gzip_file, hsrc, csExists,
      csRemove, csCreate, hne, hne']

/-- C8 witness: an encode failure on a 5-byte file keeps the original,
removes the partial `.gz`, and does emit a diagnostic. -/
theorem compress_failure_keeps_original_witness :
    c8Fs "/logs/old" = some 5 ∧
    ((gzip_file_and_delete_original c8Fs "/logs/old" GzOutcome.encodeFail).fs "/logs/old" = some 5 ∧
    (gzip_file_and_delete_original c8Fs "/logs/old" GzOutcome.encodeFail).fs
      ("/logs/old" ++ ".gz") = none ∧
    ((gzip_file_and_delete_original c8Fs "/logs/old" GzOutcome.encodeFail).diagnostics ≠ [] ↔
      (GzOutcome.encodeFail = GzOutcome.encodeFail ∨
        csExists c8Fs ("/logs/old" ++ ".gz") = true))) :=
  ⟨by decide,
    compress_failure_keeps_original c8Fs "/logs/old" 5 GzOutcome.encodeFail
      (by decide) (by decide) (by decide)⟩

end Rotatelog
